import Mathlib

/-!
Verification of the ReactorSync synthetic telemetry generator
(`data-generator/src/nuclear_physics.py`, `data_generator.py`,
`database_client.py`, `kafka_producer.py`) against its specification.

Shallow embedding conventions:
* Python floats are modelled as rationals (`ℚ`); every arithmetic step of the
  source is reproduced exactly.
* `math.sin` is an uninterpreted parameter `sinq : ℚ → ℚ` (its argument is the
  exact rational argument computed by the source); `np.random.normal` draws are
  explicit `Noise` parameters.
* Python dicts are association lists looked up with `List.lookup`; the
  heterogeneous dict passed around as an anomaly-factor map uses the small
  value universe `PyV`.
* Fallible code (division by zero, `ValueError`, `TypeError`) is modelled with
  `Option`: `none` is a raised exception.
-/

/-- Reactor operational profile (dataclass `ReactorProfile`). -/
structure ReactorProfile where
  reactor_type : String
  thermal_power : ℚ
  base_neutron_flux : ℚ
  base_temperature : ℚ
  base_pressure : ℚ
  control_rod_position : ℚ
  coolant_flow_rate : ℚ
  deriving DecidableEq, Repr

/-- The CANDU profile from `NuclearPhysicsEngine.__init__`. -/
def CANDU_profile : ReactorProfile :=
  { reactor_type := "CANDU"
    thermal_power := 3100
    base_neutron_flux := 12000000000000
    base_temperature := 285
    base_pressure := (25/2)
    control_rod_position := 50
    coolant_flow_rate := 28000 }

/-- The SMR profile from `NuclearPhysicsEngine.__init__`. -/
def SMR_profile : ReactorProfile :=
  { reactor_type := "SMR"
    thermal_power := 300
    base_neutron_flux := 8000000000000
    base_temperature := 295
    base_pressure := 11
    control_rod_position := 45
    coolant_flow_rate := 8000 }

/-- The `self.reactor_profiles` dict keyed by reactor type. -/
def reactor_profiles (reactor_type : String) : Option ReactorProfile :=
  if reactor_type = "CANDU" then some CANDU_profile
  else if reactor_type = "SMR" then some SMR_profile
  else none

/-- `NuclearPhysicsEngine.generate_neutron_flux`. -/
def generate_neutron_flux (sinq : ℚ → ℚ) (profile : ReactorProfile)
    (time_step : ℤ) (noise : ℚ) (anomaly_factor : ℚ) : ℚ :=
  let base_flux := profile.base_neutron_flux
  let rod_influence := (100 - profile.control_rod_position) / 100
  let time_variation :=
    (5/100) * sinq ((time_step : ℚ) * (1/10)) + (2/100) * sinq ((time_step : ℚ) * (3/100))
  let flux := base_flux * rod_influence * (1 + time_variation + noise) * anomaly_factor
  let max_flux := profile.base_neutron_flux * (13/10)
  max 0 (min flux max_flux)

/-- `NuclearPhysicsEngine.generate_core_temperature`. -/
def generate_core_temperature (sinq : ℚ → ℚ) (profile : ReactorProfile)
    (neutron_flux : ℚ) (time_step : ℤ) (noise : ℚ) (anomaly_factor : ℚ) : ℚ :=
  let flux_ratio := neutron_flux / profile.base_neutron_flux
  let base_temp_rise := 25 * flux_ratio
  let coolant_temp := 260 + 5 * sinq ((time_step : ℚ) * (1/1000))
  let thermal_lag := (1/10) * sinq ((time_step : ℚ) * (5/100))
  let core_temp := (coolant_temp + base_temp_rise + thermal_lag + noise) * anomaly_factor
  max 200 (min core_temp 400)

/-- `NuclearPhysicsEngine.generate_pressure`. -/
def generate_pressure (sinq : ℚ → ℚ) (profile : ReactorProfile)
    (temperature : ℚ) (time_step : ℤ) (noise : ℚ) (anomaly_factor : ℚ) : ℚ :=
  let base_pressure := profile.base_pressure
  let temp_ratio := temperature / profile.base_temperature
  let pressure_rise := base_pressure * (1/10) * (temp_ratio - 1)
  let pump_cycle := (5/10) * sinq ((time_step : ℚ) * (2/10))
  let pressure := (base_pressure + pressure_rise + pump_cycle + noise) * anomaly_factor
  max 8 (min pressure 18)

/-- `NuclearPhysicsEngine.generate_vibration`. -/
def generate_vibration (sinq : ℚ → ℚ) (profile : ReactorProfile)
    (time_step : ℤ) (noise : ℚ) (anomaly_factor : ℚ) : ℚ :=
  let base_vibration := (18/10) + (3/10) * (profile.thermal_power / 3100)
  let pump_vibration := (3/10) * sinq ((time_step : ℚ) * (8/10))
  let turbine_vibration := (2/10) * sinq ((time_step : ℚ) * (12/10))
  let vibration := (base_vibration + pump_vibration + turbine_vibration + noise) * anomaly_factor
  max 0 (min vibration 15)

/-- `NuclearPhysicsEngine.generate_tritium_level`. -/
def generate_tritium_level (sinq : ℚ → ℚ) (profile : ReactorProfile)
    (neutron_flux : ℚ) (time_step : ℤ) (noise : ℚ) (anomaly_factor : ℚ) : ℚ :=
  let flux_ratio := neutron_flux / profile.base_neutron_flux
  let base_tritium := 450 * flux_ratio
  let purification_cycle := -50 * sinq ((time_step : ℚ) * (5/100))
  let tritium := (base_tritium + purification_cycle + noise) * anomaly_factor
  max 0 (min tritium 2000)

/-- Value universe for the Python dicts handled by the generator: floats,
strings, a metric→float sub-dict (the `factors` entry), and datetimes
(modelled as integer epoch seconds). -/
inductive PyV where
  | num (q : ℚ)
  | str (s : String)
  | fdict (d : List (String × ℚ))
  | time (t : ℤ)
  deriving DecidableEq, Repr

/-- A Python dict with string keys, as an association list. -/
abbrev PyDict := List (String × PyV)

/-- Models `d.get(k, 1.0)` whose result is then used as a float multiplier:
a missing key yields the default `1.0`; a present non-float value would make
the subsequent multiplication raise `TypeError` (`none`). -/
def getFloatFactor (d : PyDict) (k : String) : Option ℚ :=
  match List.lookup k d with
  | none => some 1
  | some (PyV.num q) => some q
  | some _ => none

/-- A plain metric→float factor dict, embedded into `PyDict`. -/
def numDict (f : List (String × ℚ)) : PyDict :=
  f.map (fun p => (p.1, PyV.num p.2))

/-- One NumPy draw per metric for a single reading
(five independent `np.random.normal` calls). -/
structure Noise where
  flux : ℚ
  temp : ℚ
  press : ℚ
  vib : ℚ
  trit : ℚ
  deriving DecidableEq, Repr

/-- A complete telemetry reading as returned by
`NuclearPhysicsEngine.generate_telemetry_reading`. -/
structure Reading where
  reactor_id : ℤ
  timestamp : ℤ
  neutron_flux : ℚ
  core_temperature : ℚ
  pressure : ℚ
  vibration : ℚ
  tritium_level : ℚ
  deriving DecidableEq, Repr

/-- `NuclearPhysicsEngine.generate_telemetry_reading`: selects the profile
(unknown types fall back to CANDU), applies the five generators in dependency
order, each with its `anomalies.get(metric, 1.0)` factor. -/
def generate_telemetry_reading (sinq : ℚ → ℚ) (noise : Noise)
    (reactor_id : ℤ) (reactor_type : String) (timestamp : ℤ) (time_step : ℤ)
    (anomalies : PyDict) : Option Reading := do
  let profile := (reactor_profiles reactor_type).getD CANDU_profile
  let f1 ← getFloatFactor anomalies "neutron_flux"
  let neutron_flux := generate_neutron_flux sinq profile time_step noise.flux f1
  let f2 ← getFloatFactor anomalies "core_temperature"
  let core_temperature :=
    generate_core_temperature sinq profile neutron_flux time_step noise.temp f2
  let f3 ← getFloatFactor anomalies "pressure"
  let pressure := generate_pressure sinq profile core_temperature time_step noise.press f3
  let f4 ← getFloatFactor anomalies "vibration"
  let vibration := generate_vibration sinq profile time_step noise.vib f4
  let f5 ← getFloatFactor anomalies "tritium_level"
  let tritium_level :=
    generate_tritium_level sinq profile neutron_flux time_step noise.trit f5
  some
    { reactor_id := reactor_id
      timestamp := timestamp
      neutron_flux := neutron_flux
      core_temperature := core_temperature
      pressure := pressure
      vibration := vibration
      tritium_level := tritium_level }

/-- The metric values visible to `calculate_health_score` and
`determine_fault_type` through `telemetry.get(metric)`: each of the five
metrics may be absent (`None`). The extra `reactor_id` / `timestamp` keys of a
reading dict are never consulted by either function. -/
structure Telemetry where
  neutron_flux : Option ℚ
  core_temperature : Option ℚ
  pressure : Option ℚ
  vibration : Option ℚ
  tritium_level : Option ℚ
  deriving DecidableEq, Repr

/-- View of a full reading dict as the five health-relevant entries. -/
def Reading.toTelemetry (rd : Reading) : Telemetry :=
  { neutron_flux := some rd.neutron_flux
    core_temperature := some rd.core_temperature
    pressure := some rd.pressure
    vibration := some rd.vibration
    tritium_level := some rd.tritium_level }

/-- Python float division: raises `ZeroDivisionError` on a zero divisor. -/
def qdiv (a b : ℚ) : Option ℚ :=
  if b = 0 then none else some (a / b)

/-- Score of a single metric in `calculate_health_score`: 100 inside the
normal range, otherwise `max(0, 100 - deviation*100)` with the deviation
computed against the breached bound (that division can raise). -/
def metricScore (min_val max_val value : ℚ) : Option ℚ := do
  if min_val ≤ value ∧ value ≤ max_val then
    some 100
  else
    let deviation ←
      if value < min_val then qdiv (min_val - value) min_val
      else qdiv (value - max_val) max_val
    some (max 0 (100 - deviation * 100))

/-- One iteration of the `for metric ... in normal_ranges.items()` loop:
absent metrics are skipped, present ones add `score·weight` and `weight`
to the running totals. -/
def hsAccum (acc : ℚ × ℚ) (min_val max_val weight : ℚ) (value : Option ℚ) :
    Option (ℚ × ℚ) :=
  match value with
  | none => some acc
  | some v => (metricScore min_val max_val v).map (fun s => (acc.1 + s * weight, acc.2 + weight))

/-- `NuclearPhysicsEngine.calculate_health_score`: fold over the five normal
ranges in dict order, then divide the weighted total by the total weight
(100.0 when no metric was present). -/
def calculate_health_score (t : Telemetry) : Option ℚ := do
  let a1 ← hsAccum (0, 0) 10000000000000 15000000000000 (25/100) t.neutron_flux
  let a2 ← hsAccum a1 260 320 (30/100) t.core_temperature
  let a3 ← hsAccum a2 10 15 (20/100) t.pressure
  let a4 ← hsAccum a3 0 5 (15/100) t.vibration
  let a5 ← hsAccum a4 0 1000 (10/100) t.tritium_level
  some (if 0 < a5.2 then a5.1 / a5.2 else 100)

/-- `ReactorDataGenerator.determine_fault_type`: ordered threshold checks over
`reading.get(metric, 0)`. -/
def determine_fault_type (t : Telemetry) : Option String :=
  if 320 < t.core_temperature.getD 0 then some "temperature_spike"
  else if t.pressure.getD 0 < 10 then some "pressure_drop"
  else if 5 < t.vibration.getD 0 then some "vibration_high"
  else if 15000000000000 < t.neutron_flux.getD 0 then some "flux_instability"
  else if 1000 < t.tritium_level.getD 0 then some "tritium_high"
  else none

namespace AnomalyGenerator

/-- `AnomalyGenerator.temperature_spike`. -/
def temperature_spike (severity : String) : List (String × ℚ) :=
  if severity = "red" then [("core_temperature", 115/100)]
  else [("core_temperature", 108/100)]

/-- `AnomalyGenerator.pressure_drop`. -/
def pressure_drop (severity : String) : List (String × ℚ) :=
  if severity = "red" then [("pressure", 75/100)]
  else [("pressure", 85/100)]

/-- `AnomalyGenerator.vibration_increase`. -/
def vibration_increase (severity : String) : List (String × ℚ) :=
  if severity = "red" then [("vibration", 25/10)]
  else [("vibration", 18/10)]

/-- `AnomalyGenerator.flux_instability`. -/
def flux_instability (severity : String) : List (String × ℚ) :=
  if severity = "red" then [("neutron_flux", 125/100)]
  else [("neutron_flux", 112/100)]

/-- `AnomalyGenerator.coolant_leak`. -/
def coolant_leak (severity : String) : List (String × ℚ) :=
  if severity = "red" then
    [("pressure", 70/100), ("core_temperature", 112/100), ("vibration", 16/10)]
  else
    [("pressure", 80/100), ("core_temperature", 106/100), ("vibration", 13/10)]

/-- `AnomalyGenerator.pump_failure`. -/
def pump_failure (severity : String) : List (String × ℚ) :=
  if severity = "red" then [("pressure", 65/100), ("vibration", 3)]
  else [("pressure", 85/100), ("vibration", 22/10)]

/-- `AnomalyGenerator.generate_anomaly`: dispatches on the anomaly type and
raises `ValueError` (`none`) on an unknown one. -/
def generate_anomaly (anomaly_type severity : String) : Option (List (String × ℚ)) :=
  if anomaly_type = "temperature_spike" then some (temperature_spike severity)
  else if anomaly_type = "pressure_drop" then some (pressure_drop severity)
  else if anomaly_type = "vibration_increase" then some (vibration_increase severity)
  else if anomaly_type = "flux_instability" then some (flux_instability severity)
  else if anomaly_type = "coolant_leak" then some (coolant_leak severity)
  else if anomaly_type = "pump_failure" then some (pump_failure severity)
  else none

end AnomalyGenerator

/-- One entry of `TelemetryGenerator.active_anomalies`: the dict stored by
`inject_anomaly`, with keys `factors`, `expires_at`, `type`, `severity`. -/
structure AnomalyEntry where
  factors : List (String × ℚ)
  expires_at : ℤ
  type : String
  severity : String
  deriving DecidableEq, Repr

/-- The anomaly entry as the Python dict object it is: this is the value that
`generate_reading` hands to `generate_telemetry_reading` as its `anomalies`
argument, so the metric names are looked up among these four keys. -/
def entryToDict (e : AnomalyEntry) : PyDict :=
  [("factors", PyV.fdict e.factors), ("expires_at", PyV.time e.expires_at),
   ("type", PyV.str e.type), ("severity", PyV.str e.severity)]

/-- `TelemetryGenerator` state: the shared monotonic time-step counter and the
per-reactor anomaly dict (insertion-ordered association list, keys unique). -/
structure TelemetryGen where
  time_step : ℤ
  active_anomalies : List (ℤ × AnomalyEntry)
  deriving DecidableEq, Repr

/-- Python dict assignment `m[k] = v`: replace the entry in place if the key
exists (keys are unique, so at the first occurrence), otherwise append. -/
def setKey : List (ℤ × AnomalyEntry) → ℤ → AnomalyEntry → List (ℤ × AnomalyEntry)
  | [], k, v => [(k, v)]
  | p :: rest, k, v =>
    if p.1 == k then (k, v) :: rest else p :: setKey rest k v

/-- `TelemetryGenerator.inject_anomaly`: look the factor map up in the catalog
(`ValueError` propagates) and store the entry with
`expires_at = now + duration_minutes` (seconds). -/
def inject_anomaly (g : TelemetryGen) (now reactor_id : ℤ)
    (anomaly_type severity : String) (duration_minutes : ℤ) : Option TelemetryGen :=
  (AnomalyGenerator.generate_anomaly anomaly_type severity).map (fun factors =>
    { g with active_anomalies :=
        (setKey g.active_anomalies reactor_id
          { factors := factors
            expires_at := now + 60 * duration_minutes
            type := anomaly_type
            severity := severity }) })

/-- `TelemetryGenerator.clear_anomaly`. -/
def clear_anomaly (g : TelemetryGen) (reactor_id : ℤ) : TelemetryGen :=
  { g with active_anomalies := g.active_anomalies.filter (fun p => !(p.1 == reactor_id)) }

/-- `TelemetryGenerator.update_anomalies`: drop every entry whose
`expires_at < now`. -/
def update_anomalies (now : ℤ) (g : TelemetryGen) : TelemetryGen :=
  { g with active_anomalies :=
      g.active_anomalies.filter (fun p => !decide (p.2.expires_at < now)) }

/-- `TelemetryGenerator.generate_reading`: fetch
`active_anomalies.get(reactor_id)` with an empty-dict default — the whole entry dict, not its
`factors` sub-dict — generate the reading with it, then advance the shared
time step. -/
def generate_reading (sinq : ℚ → ℚ) (noise : Noise) (g : TelemetryGen)
    (reactor_id : ℤ) (reactor_type : String) (timestamp : ℤ) :
    Option (Reading × TelemetryGen) :=
  let anomalies : PyDict :=
    match List.lookup reactor_id g.active_anomalies with
    | some e => entryToDict e
    | none => []
  (generate_telemetry_reading sinq noise reactor_id reactor_type timestamp
      g.time_step anomalies).map
    (fun rd => (rd, { g with time_step := g.time_step + 1 }))

/-- The `generation_stats` counters of `ReactorDataGenerator`. -/
structure GenStats where
  total_readings : ℕ
  successful_kafka : ℕ
  successful_db : ℕ
  errors : ℕ
  deriving DecidableEq, Repr

/-- `TelemetryProducer.send_batch_telemetry`: per-message sends; returns the
number of successes. `kafkaOk` is the oracle saying whether the bus accepts a
given message. -/
def send_batch_telemetry (kafkaOk : Reading → Bool) (readings : List Reading) : ℕ :=
  readings.countP kafkaOk

/-- `ReactorDataGenerator.send_to_kafka`: add the success count to the stats
(a shortfall is only logged). -/
def send_to_kafka (kafkaOk : Reading → Bool) (stats : GenStats)
    (readings : List Reading) : GenStats :=
  { stats with successful_kafka :=
      stats.successful_kafka + send_batch_telemetry kafkaOk readings }

/-- `DatabaseClient.insert_telemetry_batch`: one `executemany` for the whole
batch — if any row is refused the whole call raises, the exception is caught
inside this method and it returns 0; otherwise it returns the batch length.
`dbOk` is the oracle saying whether the store accepts a given row. -/
def insert_telemetry_batch (dbOk : Reading → Bool) (readings : List Reading) : ℕ :=
  if readings.all dbOk then readings.length else 0

/-- `ReactorDataGenerator.store_in_database`: add the insert count to the
stats. The `errors` counter would only move if `insert_telemetry_batch` itself
raised, which it never does (it catches every exception and returns 0), so a
failed batch leaves `errors` unchanged. -/
def store_in_database (dbOk : Reading → Bool) (stats : GenStats)
    (readings : List Reading) : GenStats :=
  { stats with successful_db :=
      stats.successful_db + insert_telemetry_batch dbOk readings }

/-- The per-reactor loop of `ReactorDataGenerator.generate_telemetry_cycle`:
generate a reading per reactor (reactors are `(id, type)` pairs); a per-reactor
failure is caught, counted in `errors` and skipped. `noiseF` supplies the five
noise draws of the reading generated at a given time step. -/
def genPhase (sinq : ℚ → ℚ) (noiseF : ℤ → Noise) (timestamp : ℤ) :
    List (ℤ × String) → TelemetryGen → GenStats →
      List Reading × TelemetryGen × GenStats
  | [], g, stats => ([], g, stats)
  | r :: rest, g, stats =>
    match generate_reading sinq (noiseF g.time_step) g r.1 r.2 timestamp with
    | some (rd, g1) =>
      let out := genPhase sinq noiseF timestamp rest g1
        { stats with total_readings := stats.total_readings + 1 }
      (rd :: out.1, out.2)
    | none =>
      genPhase sinq noiseF timestamp rest g
        { stats with errors := stats.errors + 1 }

/-- `ReactorDataGenerator.generate_telemetry_cycle`: generate all readings,
then publish the batch to the bus, then persist it to the store. (The
subsequent `update_health_scores` pass touches no generation counter; its
fault side effects are modelled by `check_for_faults` below.) -/
def generate_telemetry_cycle (sinq : ℚ → ℚ) (noiseF : ℤ → Noise)
    (kafkaOk dbOk : Reading → Bool) (reactors : List (ℤ × String))
    (timestamp : ℤ) (g : TelemetryGen) (stats : GenStats) :
    List Reading × TelemetryGen × GenStats :=
  let out := genPhase sinq noiseF timestamp reactors g stats
  let s1 := send_to_kafka kafkaOk out.2.2 out.1
  let s2 := store_in_database dbOk s1 out.1
  (out.1, out.2.1, s2)

/-- A fault dict as built in `check_for_faults` (the free-text `description`
field is omitted: nothing reads it). -/
structure FaultData where
  reactor_id : ℤ
  fault_type : String
  severity : String
  timestamp : ℤ
  deriving DecidableEq, Repr

/-- A row of the `faults` table (`resolved` defaults to false on insert). -/
structure FaultRecord where
  reactor_id : ℤ
  fault_type : String
  severity : String
  timestamp : ℤ
  resolved : Bool
  deriving DecidableEq, Repr

/-- The de-duplication predicate of `DatabaseClient.create_fault`: an existing
row matches if it has the same reactor and fault type, is unresolved, and its
timestamp is within the last hour of the current database time `now`. -/
def dedup_match (now : ℤ) (fd : FaultData) (f : FaultRecord) : Bool :=
  f.reactor_id == fd.reactor_id && f.fault_type == fd.fault_type &&
    f.resolved == false && decide (now - 3600 < f.timestamp)

/-- `DatabaseClient.create_fault`: skip the insert when a matching unresolved
fault exists in the 1-hour window, otherwise append the new row. -/
def create_fault (now : ℤ) (db : List FaultRecord) (fd : FaultData) :
    List FaultRecord :=
  if db.any (dedup_match now fd) then db
  else db ++ [{ reactor_id := fd.reactor_id, fault_type := fd.fault_type
                severity := fd.severity, timestamp := fd.timestamp
                resolved := false }]

/-- `ReactorDataGenerator.check_for_faults`: when the health score is below
90, classify; if a fault type is found, send the alert to the bus
unconditionally and then call `create_fault` (which applies the de-dup
window). Returns the published-alert list and the fault table. -/
def check_for_faults (reading : Reading) (health_score : ℚ) (now : ℤ)
    (alerts : List FaultData) (db : List FaultRecord) :
    List FaultData × List FaultRecord :=
  if health_score < 90 then
    match determine_fault_type reading.toTelemetry with
    | some ft =>
      let fd : FaultData :=
        { reactor_id := reading.reactor_id, fault_type := ft
          severity := if health_score < 70 then "red" else "yellow"
          timestamp := reading.timestamp }
      (alerts ++ [fd], create_fault now db fd)
    | none => (alerts, db)
  else (alerts, db)

/-- Events of one pass of the `run` loop body, in execution order.
`generated` records the tracker contents at the moment the readings of the
cycle were generated. -/
inductive CycleEvent where
  | generated (anoms : List (ℤ × AnomalyEntry))
  | swept
  deriving DecidableEq, Repr

/-- One iteration of `ReactorDataGenerator.run`: `generate_telemetry_cycle`
first, `update_anomalies` afterwards (`sweepNow` is the wall-clock instant of
the sweep, at or after the cycle timestamp `now`). The event list records the
order in which the two phases ran. -/
def run_cycle (sinq : ℚ → ℚ) (noiseF : ℤ → Noise)
    (kafkaOk dbOk : Reading → Bool) (reactors : List (ℤ × String))
    (now sweepNow : ℤ) (g : TelemetryGen) (stats : GenStats) :
    (List Reading × TelemetryGen × GenStats) × List CycleEvent :=
  let out := generate_telemetry_cycle sinq noiseF kafkaOk dbOk reactors now g stats
  let g2 := update_anomalies sweepNow out.2.1
  ((out.1, g2, out.2.2),
   [CycleEvent.generated g.active_anomalies, CycleEvent.swept])

lemma clamp_mem (lo hi x : ℚ) (h : lo ≤ hi) :
    lo ≤ max lo (min x hi) ∧ max lo (min x hi) ≤ hi :=
  ⟨le_max_left _ _, max_le h (min_le_right x hi)⟩

lemma getFloatFactor_numDict (f : List (String × ℚ)) (k : String) :
    ∃ q, getFloatFactor (numDict f) k = some q := by
  induction f with
  | nil => exact ⟨1, rfl⟩
  | cons p rest ih =>
    by_cases h : k == p.1
    · exact ⟨p.2, by simp [getFloatFactor, numDict, List.lookup, h]⟩
    · obtain ⟨q, hq⟩ := ih
      exact ⟨q, by simpa [getFloatFactor, numDict, List.lookup, h] using hq⟩

lemma base_flux_nonneg (reactor_type : String) :
    0 ≤ ((reactor_profiles reactor_type).getD CANDU_profile).base_neutron_flux := by
  unfold reactor_profiles
  split_ifs <;> simp [CANDU_profile, SMR_profile]

lemma generate_neutron_flux_bounds (sinq : ℚ → ℚ) (p : ReactorProfile)
    (ts : ℤ) (noise af : ℚ) (h : 0 ≤ p.base_neutron_flux) :
    0 ≤ generate_neutron_flux sinq p ts noise af ∧
      generate_neutron_flux sinq p ts noise af ≤ p.base_neutron_flux * (13/10) := by
  simp only [generate_neutron_flux]
  exact clamp_mem _ _ _ (by nlinarith)

lemma generate_core_temperature_bounds (sinq : ℚ → ℚ) (p : ReactorProfile)
    (nf : ℚ) (ts : ℤ) (noise af : ℚ) :
    200 ≤ generate_core_temperature sinq p nf ts noise af ∧
      generate_core_temperature sinq p nf ts noise af ≤ 400 := by
  simp only [generate_core_temperature]
  exact clamp_mem _ _ _ (by norm_num)

lemma generate_pressure_bounds (sinq : ℚ → ℚ) (p : ReactorProfile)
    (t : ℚ) (ts : ℤ) (noise af : ℚ) :
    8 ≤ generate_pressure sinq p t ts noise af ∧
      generate_pressure sinq p t ts noise af ≤ 18 := by
  simp only [generate_pressure]
  exact clamp_mem _ _ _ (by norm_num)

lemma generate_vibration_bounds (sinq : ℚ → ℚ) (p : ReactorProfile)
    (ts : ℤ) (noise af : ℚ) :
    0 ≤ generate_vibration sinq p ts noise af ∧
      generate_vibration sinq p ts noise af ≤ 15 := by
  simp only [generate_vibration]
  exact clamp_mem _ _ _ (by norm_num)

lemma generate_tritium_level_bounds (sinq : ℚ → ℚ) (p : ReactorProfile)
    (nf : ℚ) (ts : ℤ) (noise af : ℚ) :
    0 ≤ generate_tritium_level sinq p nf ts noise af ∧
      generate_tritium_level sinq p nf ts noise af ≤ 2000 := by
  simp only [generate_tritium_level]
  exact clamp_mem _ _ _ (by norm_num)

/-- C1: for every reactor profile in the engine (the profile selected for the
requested type), every time step, every noise value and every anomaly-factor
map — arbitrary rational factors included — the reading produced by
`generate_telemetry_reading` has neutron flux in [0, 1.3·base flux], core
temperature in [200, 400], pressure in [8, 18], vibration in [0, 15] and
tritium level in [0, 2000]. -/
theorem C1_clamped_ranges (sinq : ℚ → ℚ) (noise : Noise) (rid : ℤ)
    (reactor_type : String) (timestamp time_step : ℤ)
    (factors : List (String × ℚ)) :
    ∃ rd, generate_telemetry_reading sinq noise rid reactor_type timestamp
            time_step (numDict factors) = some rd ∧
      0 ≤ rd.neutron_flux ∧
      rd.neutron_flux ≤
        ((reactor_profiles reactor_type).getD CANDU_profile).base_neutron_flux * (13/10) ∧
      200 ≤ rd.core_temperature ∧ rd.core_temperature ≤ 400 ∧
      8 ≤ rd.pressure ∧ rd.pressure ≤ 18 ∧
      0 ≤ rd.vibration ∧ rd.vibration ≤ 15 ∧
      0 ≤ rd.tritium_level ∧ rd.tritium_level ≤ 2000 := by
  obtain ⟨q1, h1⟩ := getFloatFactor_numDict factors "neutron_flux"
  obtain ⟨q2, h2⟩ := getFloatFactor_numDict factors "core_temperature"
  obtain ⟨q3, h3⟩ := getFloatFactor_numDict factors "pressure"
  obtain ⟨q4, h4⟩ := getFloatFactor_numDict factors "vibration"
  obtain ⟨q5, h5⟩ := getFloatFactor_numDict factors "tritium_level"
  refine ⟨{ reactor_id := rid, timestamp := timestamp
            neutron_flux := generate_neutron_flux sinq
              ((reactor_profiles reactor_type).getD CANDU_profile) time_step noise.flux q1
            core_temperature := generate_core_temperature sinq
              ((reactor_profiles reactor_type).getD CANDU_profile)
              (generate_neutron_flux sinq
                ((reactor_profiles reactor_type).getD CANDU_profile) time_step noise.flux q1)
              time_step noise.temp q2
            pressure := generate_pressure sinq
              ((reactor_profiles reactor_type).getD CANDU_profile)
              (generate_core_temperature sinq
                ((reactor_profiles reactor_type).getD CANDU_profile)
                (generate_neutron_flux sinq
                  ((reactor_profiles reactor_type).getD CANDU_profile) time_step noise.flux q1)
                time_step noise.temp q2)
              time_step noise.press q3
            vibration := generate_vibration sinq
              ((reactor_profiles reactor_type).getD CANDU_profile) time_step noise.vib q4
            tritium_level := generate_tritium_level sinq
              ((reactor_profiles reactor_type).getD CANDU_profile)
              (generate_neutron_flux sinq
                ((reactor_profiles reactor_type).getD CANDU_profile) time_step noise.flux q1)
              time_step noise.trit q5 }, ?_, ?_, ?_, ?_, ?_, ?_, ?_, ?_, ?_, ?_, ?_⟩
  · simp [generate_telemetry_reading, h1, h2, h3, h4, h5]
  · exact (generate_neutron_flux_bounds _ _ _ _ _ (base_flux_nonneg reactor_type)).1
  · exact (generate_neutron_flux_bounds _ _ _ _ _ (base_flux_nonneg reactor_type)).2
  · exact (generate_core_temperature_bounds _ _ _ _ _ _).1
  · exact (generate_core_temperature_bounds _ _ _ _ _ _).2
  · exact (generate_pressure_bounds _ _ _ _ _ _).1
  · exact (generate_pressure_bounds _ _ _ _ _ _).2
  · exact (generate_vibration_bounds _ _ _ _ _).1
  · exact (generate_vibration_bounds _ _ _ _ _).2
  · exact (generate_tritium_level_bounds _ _ _ _ _ _).1
  · exact (generate_tritium_level_bounds _ _ _ _ _ _).2

lemma baseline_reading_CANDU (sinq : ℚ → ℚ) (h0 : sinq 0 = 0) (rid ts : ℤ) :
    generate_telemetry_reading sinq ⟨0, 0, 0, 0, 0⟩ rid "CANDU" ts 0 [] =
      some ⟨rid, ts, 6000000000000, 545/2, 5675/456, 21/10, 225⟩ := by
  have e1 : generate_neutron_flux sinq CANDU_profile 0 0 1 = 6000000000000 := by
    norm_num [generate_neutron_flux, CANDU_profile, min_def, max_def, h0]
  have e2 : generate_core_temperature sinq CANDU_profile 6000000000000 0 0 1 = 545/2 := by
    norm_num [generate_core_temperature, CANDU_profile, min_def, max_def, h0]
  have e3 : generate_pressure sinq CANDU_profile (545/2) 0 0 1 = 5675/456 := by
    norm_num [generate_pressure, CANDU_profile, min_def, max_def, h0]
  have e4 : generate_vibration sinq CANDU_profile 0 0 1 = 21/10 := by
    norm_num [generate_vibration, CANDU_profile, min_def, max_def, h0]
  have e5 : generate_tritium_level sinq CANDU_profile 6000000000000 0 0 1 = 225 := by
    norm_num [generate_tritium_level, CANDU_profile, min_def, max_def, h0]
  simp [generate_telemetry_reading, getFloatFactor, reactor_profiles, e1, e2, e3, e4, e5]

lemma baseline_reading_SMR (sinq : ℚ → ℚ) (h0 : sinq 0 = 0) (rid ts : ℤ) :
    generate_telemetry_reading sinq ⟨0, 0, 0, 0, 0⟩ rid "SMR" ts 0 [] =
      some ⟨rid, ts, 4400000000000, 1095/4, 25773/2360, 567/310, 495/2⟩ := by
  have e1 : generate_neutron_flux sinq SMR_profile 0 0 1 = 4400000000000 := by
    norm_num [generate_neutron_flux, SMR_profile, min_def, max_def, h0]
  have e2 : generate_core_temperature sinq SMR_profile 4400000000000 0 0 1 = 1095/4 := by
    norm_num [generate_core_temperature, SMR_profile, min_def, max_def, h0]
  have e3 : generate_pressure sinq SMR_profile (1095/4) 0 0 1 = 25773/2360 := by
    norm_num [generate_pressure, SMR_profile, min_def, max_def, h0]
  have e4 : generate_vibration sinq SMR_profile 0 0 1 = 567/310 := by
    norm_num [generate_vibration, SMR_profile, min_def, max_def, h0]
  have e5 : generate_tritium_level sinq SMR_profile 4400000000000 0 0 1 = 495/2 := by
    norm_num [generate_tritium_level, SMR_profile, min_def, max_def, h0]
  simp [generate_telemetry_reading, getFloatFactor, reactor_profiles, e1, e2, e3, e4, e5]

lemma health_CANDU_baseline :
    calculate_health_score
        (Reading.toTelemetry ⟨1, 0, 6000000000000, 545/2, 5675/456, 21/10, 225⟩) =
      some 90 := by
  norm_num [Reading.toTelemetry, calculate_health_score, hsAccum, metricScore, qdiv]

lemma health_SMR_baseline :
    calculate_health_score
        (Reading.toTelemetry ⟨2, 0, 4400000000000, 1095/4, 25773/2360, 567/310, 495/2⟩) =
      some 86 := by
  norm_num [Reading.toTelemetry, calculate_health_score, hsAccum, metricScore, qdiv]

/-- C2 (counterexample): the baseline reading at time step 0 (all anomaly
factors defaulting to 1.0, noise at its mean 0, `sin` terms all evaluated at
argument 0 where sin vanishes) for a CANDU reactor has health score 90, not
100: rod influence halves the flux below the health model's normal minimum. -/
theorem C2_counterexample :
    ((generate_telemetry_reading (fun _ => 0) ⟨0, 0, 0, 0, 0⟩ 1 "CANDU" 0 0 []).bind
        (fun rd => calculate_health_score rd.toTelemetry)) = some 90 ∧
      (90 : ℚ) ≠ 100 := by
  refine ⟨?_, by norm_num⟩
  rw [baseline_reading_CANDU (fun _ => 0) rfl 1 0]
  simpa using health_CANDU_baseline

/-- C2 (amended): for every interpretation of `sin` vanishing at 0, the
baseline reading at time step 0 (anomaly factors 1.0, noise at mean) has
health score exactly 90 for CANDU and exactly 86 for SMR — not 100. The flux
metric is penalized because control-rod influence puts the baseline flux below
the scorer's normal-range minimum of 1.0e13. -/
theorem C2_baseline_health_scores (sinq : ℚ → ℚ) (h0 : sinq 0 = 0) :
    (((generate_telemetry_reading sinq ⟨0, 0, 0, 0, 0⟩ 1 "CANDU" 0 0 []).bind
        (fun rd => calculate_health_score rd.toTelemetry)) = some 90 ∧
      (90 : ℚ) < 100) ∧
    (((generate_telemetry_reading sinq ⟨0, 0, 0, 0, 0⟩ 2 "SMR" 0 0 []).bind
        (fun rd => calculate_health_score rd.toTelemetry)) = some 86 ∧
      (86 : ℚ) < 100) := by
  refine ⟨⟨?_, by norm_num⟩, ⟨?_, by norm_num⟩⟩
  · rw [baseline_reading_CANDU sinq h0 1 0]
    simpa using health_CANDU_baseline
  · rw [baseline_reading_SMR sinq h0 2 0]
    simpa using health_SMR_baseline

/-- C2 (witness): the amended claim applied at the zero interpretation of
`sin`. -/
theorem C2_baseline_health_scores_witness :
    (((generate_telemetry_reading (fun _ => 0) ⟨0, 0, 0, 0, 0⟩ 1 "CANDU" 0 0 []).bind
        (fun rd => calculate_health_score rd.toTelemetry)) = some 90 ∧
      (90 : ℚ) < 100) ∧
    (((generate_telemetry_reading (fun _ => 0) ⟨0, 0, 0, 0, 0⟩ 2 "SMR" 0 0 []).bind
        (fun rd => calculate_health_score rd.toTelemetry)) = some 86 ∧
      (86 : ℚ) < 100) :=
  C2_baseline_health_scores (fun _ => 0) rfl

/-- C3: `determine_fault_type` is first-match over the fixed order
temperature > 320, pressure < 10, vibration > 5, flux > 1.5e13,
tritium > 1000, else none (so at most one fault type is ever returned); the
claim's concrete reading classifies as `temperature_spike`, and whenever both
the temperature and the vibration thresholds are breached, `temperature_spike`
wins. -/
theorem C3_first_match_classification :
    (determine_fault_type ⟨some 12000000000000, some 325, some 12, some 2, some 500⟩ =
        some "temperature_spike") ∧
    (∀ t : Telemetry, 320 < t.core_temperature.getD 0 →
        determine_fault_type t = some "temperature_spike") ∧
    (∀ t : Telemetry, ¬ 320 < t.core_temperature.getD 0 →
        t.pressure.getD 0 < 10 →
        determine_fault_type t = some "pressure_drop") ∧
    (∀ t : Telemetry, ¬ 320 < t.core_temperature.getD 0 →
        ¬ t.pressure.getD 0 < 10 → 5 < t.vibration.getD 0 →
        determine_fault_type t = some "vibration_high") ∧
    (∀ t : Telemetry, ¬ 320 < t.core_temperature.getD 0 →
        ¬ t.pressure.getD 0 < 10 → ¬ 5 < t.vibration.getD 0 →
        15000000000000 < t.neutron_flux.getD 0 →
        determine_fault_type t = some "flux_instability") ∧
    (∀ t : Telemetry, ¬ 320 < t.core_temperature.getD 0 →
        ¬ t.pressure.getD 0 < 10 → ¬ 5 < t.vibration.getD 0 →
        ¬ 15000000000000 < t.neutron_flux.getD 0 →
        1000 < t.tritium_level.getD 0 →
        determine_fault_type t = some "tritium_high") ∧
    (∀ t : Telemetry, ¬ 320 < t.core_temperature.getD 0 →
        ¬ t.pressure.getD 0 < 10 → ¬ 5 < t.vibration.getD 0 →
        ¬ 15000000000000 < t.neutron_flux.getD 0 →
        ¬ 1000 < t.tritium_level.getD 0 →
        determine_fault_type t = none) ∧
    (∀ t : Telemetry, 320 < t.core_temperature.getD 0 → 5 < t.vibration.getD 0 →
        determine_fault_type t = some "temperature_spike") := by
  refine ⟨by norm_num [determine_fault_type], ?_, ?_, ?_, ?_, ?_, ?_, ?_⟩
  · intro t h1
    simp [determine_fault_type, if_pos h1]
  · intro t h1 h2
    simp [determine_fault_type, if_neg h1, if_pos h2]
  · intro t h1 h2 h3
    simp [determine_fault_type, if_neg h1, if_neg h2, if_pos h3]
  · intro t h1 h2 h3 h4
    simp [determine_fault_type, if_neg h1, if_neg h2, if_neg h3, if_pos h4]
  · intro t h1 h2 h3 h4 h5
    simp [determine_fault_type, if_neg h1, if_neg h2, if_neg h3, if_neg h4, if_pos h5]
  · intro t h1 h2 h3 h4 h5
    simp [determine_fault_type, if_neg h1, if_neg h2, if_neg h3, if_neg h4, if_neg h5]
  · intro t h1 _
    simp [determine_fault_type, if_pos h1]

/-- C3 (witness): the priority check at a reading breaching both the
temperature and the vibration thresholds. -/
theorem C3_first_match_classification_witness :
    determine_fault_type ⟨some 12000000000000, some 325, some 12, some 6, some 500⟩ =
      some "temperature_spike" :=
  C3_first_match_classification.2.2.2.2.2.2.2
    ⟨some 12000000000000, some 325, some 12, some 6, some 500⟩
    (by norm_num) (by norm_num)

lemma metricScore_bounds (minv maxv v s : ℚ) (hmin : 0 ≤ minv) (hmax : 0 ≤ maxv)
    (h : metricScore minv maxv v = some s) : 0 ≤ s ∧ s ≤ 100 := by
  unfold metricScore qdiv at h
  by_cases hin : minv ≤ v ∧ v ≤ maxv
  · rw [if_pos hin] at h
    obtain rfl : (100 : ℚ) = s := Option.some.inj h
    norm_num
  · rw [if_neg hin] at h
    by_cases hlt : v < minv
    · rw [if_pos hlt] at h
      by_cases h0 : minv = 0
      · rw [if_pos h0] at h
        simp at h
      · rw [if_neg h0] at h
        simp only [Option.some_bind] at h
        obtain rfl : max 0 (100 - (minv - v) / minv * 100) = s := Option.some.inj h
        have hd : 0 ≤ (minv - v) / minv :=
          div_nonneg (by linarith) hmin
        exact ⟨le_max_left _ _, max_le (by norm_num) (by nlinarith)⟩
    · rw [if_neg hlt] at h
      by_cases h0 : maxv = 0
      · rw [if_pos h0] at h
        simp at h
      · rw [if_neg h0] at h
        simp only [Option.some_bind] at h
        obtain rfl : max 0 (100 - (v - maxv) / maxv * 100) = s := Option.some.inj h
        push_neg at hin hlt
        have hd : 0 ≤ (v - maxv) / maxv :=
          div_nonneg (by linarith [hin hlt]) hmax
        exact ⟨le_max_left _ _, max_le (by norm_num) (by nlinarith)⟩

lemma hsAccum_inv (acc acc' : ℚ × ℚ) (minv maxv w : ℚ) (v : Option ℚ)
    (hmin : 0 ≤ minv) (hmax : 0 ≤ maxv) (hw : 0 ≤ w)
    (hinv : 0 ≤ acc.1 ∧ acc.1 ≤ 100 * acc.2 ∧ 0 ≤ acc.2)
    (h : hsAccum acc minv maxv w v = some acc') :
    0 ≤ acc'.1 ∧ acc'.1 ≤ 100 * acc'.2 ∧ 0 ≤ acc'.2 := by
  cases v with
  | none =>
    obtain rfl : acc = acc' := Option.some.inj h
    exact hinv
  | some q =>
    simp only [hsAccum] at h
    obtain ⟨s, hs, hacc⟩ := Option.map_eq_some'.mp h
    obtain ⟨hs0, hs100⟩ := metricScore_bounds minv maxv q s hmin hmax hs
    obtain rfl := hacc.symm
    refine ⟨?_, ?_, ?_⟩
    · show 0 ≤ acc.1 + s * w
      nlinarith [hinv.1]
    · show acc.1 + s * w ≤ 100 * (acc.2 + w)
      nlinarith [hinv.2.1]
    · show 0 ≤ acc.2 + w
      nlinarith [hinv.2.2]

/-- C9 (counterexample): a telemetry dict whose only metric is a negative
vibration makes `calculate_health_score` raise `ZeroDivisionError`
(`(min - value)/min` with `min = 0`) instead of returning a value in
[0, 100]. -/
theorem C9_counterexample :
    calculate_health_score ⟨none, none, none, some (-1), none⟩ = none := by
  norm_num [calculate_health_score, hsAccum, metricScore, qdiv]

/-- C9 (amended): whenever `calculate_health_score` returns a value at all
(no metric triggers the below-zero division), that value lies in [0, 100],
for any subset of metrics present and however far each metric deviates. -/
theorem C9_score_in_range (t : Telemetry) (s : ℚ)
    (h : calculate_health_score t = some s) : 0 ≤ s ∧ s ≤ 100 := by
  simp only [calculate_health_score, bind, Option.bind_eq_bind] at h
  obtain ⟨a1, h1, h⟩ := Option.bind_eq_some.mp h
  obtain ⟨a2, h2, h⟩ := Option.bind_eq_some.mp h
  obtain ⟨a3, h3, h⟩ := Option.bind_eq_some.mp h
  obtain ⟨a4, h4, h⟩ := Option.bind_eq_some.mp h
  obtain ⟨a5, h5, h⟩ := Option.bind_eq_some.mp h
  have i0 : 0 ≤ ((0 : ℚ), (0 : ℚ)).1 ∧ ((0 : ℚ), (0 : ℚ)).1 ≤ 100 * ((0 : ℚ), (0 : ℚ)).2 ∧
      0 ≤ ((0 : ℚ), (0 : ℚ)).2 := by norm_num
  have i1 := hsAccum_inv _ _ _ _ _ _ (by norm_num) (by norm_num) (by norm_num) i0 h1
  have i2 := hsAccum_inv _ _ _ _ _ _ (by norm_num) (by norm_num) (by norm_num) i1 h2
  have i3 := hsAccum_inv _ _ _ _ _ _ (by norm_num) (by norm_num) (by norm_num) i2 h3
  have i4 := hsAccum_inv _ _ _ _ _ _ (by norm_num) (by norm_num) (by norm_num) i3 h4
  have i5 := hsAccum_inv _ _ _ _ _ _ (by norm_num) (by norm_num) (by norm_num) i4 h5
  obtain rfl := (Option.some.inj h)
  split_ifs with hpos
  · exact ⟨div_nonneg i5.1 (le_of_lt hpos), (div_le_iff₀ hpos).mpr (by linarith [i5.2.1])⟩
  · norm_num

/-- C9 (witness): the range bound applied at the baseline CANDU reading whose
score is 90. -/
theorem C9_score_in_range_witness :
    calculate_health_score
        ⟨some 6000000000000, some (545/2), some (5675/456), some (21/10), some 225⟩ =
        some 90 ∧
      ((0 : ℚ) ≤ 90 ∧ (90 : ℚ) ≤ 100) := by
  have h : calculate_health_score
      ⟨some 6000000000000, some (545/2), some (5675/456), some (21/10), some 225⟩ =
      some 90 := by
    norm_num [calculate_health_score, hsAccum, metricScore, qdiv]
  exact ⟨h, C9_score_in_range _ 90 h⟩

lemma metricScore_isSome (minv maxv v : ℚ) (h1 : 0 ≤ v ∨ minv ≠ 0)
    (h2 : maxv ≠ 0) : (metricScore minv maxv v).isSome := by
  unfold metricScore qdiv
  by_cases hin : minv ≤ v ∧ v ≤ maxv
  · rw [if_pos hin]
    rfl
  · rw [if_neg hin]
    by_cases hlt : v < minv
    · rw [if_pos hlt]
      have hne : minv ≠ 0 := by
        rcases h1 with hv | hm
        · exact ne_of_gt (lt_of_le_of_lt hv hlt)
        · exact hm
      rw [if_neg hne]
      rfl
    · rw [if_neg hlt, if_neg h2]
      rfl

lemma hsAccum_isSome (acc : ℚ × ℚ) (minv maxv w : ℚ) (v : Option ℚ)
    (h : ∀ q, v = some q → (metricScore minv maxv q).isSome) :
    ∃ acc', hsAccum acc minv maxv w v = some acc' := by
  cases v with
  | none => exact ⟨acc, rfl⟩
  | some q =>
    obtain ⟨s, hs⟩ := Option.isSome_iff_exists.mp (h q rfl)
    exact ⟨(acc.1 + s * w, acc.2 + w), by simp [hsAccum, hs]⟩

/-- C10: the below-minimum deviation `(min - value)/min` divides by zero for
the zero-minimum metrics: a reading with negative vibration (all other metrics
normal) makes `calculate_health_score` raise (`none`); and under the
precondition that every present metric respects its lower clamp bound
(flux ≥ 0, temperature ≥ 200, pressure ≥ 8, vibration ≥ 0, tritium ≥ 0 — which
the generator guarantees), the computation is total. -/
theorem C10_divzero_guarded_by_clamps :
    (calculate_health_score ⟨some 12000000000000, some 285, some (25/2), some (-1), some 500⟩ =
        none) ∧
    (∀ t : Telemetry,
      (∀ q, t.neutron_flux = some q → 0 ≤ q) →
      (∀ q, t.core_temperature = some q → 200 ≤ q) →
      (∀ q, t.pressure = some q → 8 ≤ q) →
      (∀ q, t.vibration = some q → 0 ≤ q) →
      (∀ q, t.tritium_level = some q → 0 ≤ q) →
      (calculate_health_score t).isSome) := by
  constructor
  · norm_num [calculate_health_score, hsAccum, metricScore, qdiv]
  · intro t hflux htemp hpress hvib htrit
    obtain ⟨a1, h1⟩ := hsAccum_isSome (0, 0) 10000000000000 15000000000000 (25/100)
      t.neutron_flux
      (fun q _ => metricScore_isSome _ _ q (Or.inr (by norm_num)) (by norm_num))
    obtain ⟨a2, h2⟩ := hsAccum_isSome a1 260 320 (30/100) t.core_temperature
      (fun q _ => metricScore_isSome _ _ q (Or.inr (by norm_num)) (by norm_num))
    obtain ⟨a3, h3⟩ := hsAccum_isSome a2 10 15 (20/100) t.pressure
      (fun q _ => metricScore_isSome _ _ q (Or.inr (by norm_num)) (by norm_num))
    obtain ⟨a4, h4⟩ := hsAccum_isSome a3 0 5 (15/100) t.vibration
      (fun q hq => metricScore_isSome _ _ q (Or.inl (hvib q hq)) (by norm_num))
    obtain ⟨a5, h5⟩ := hsAccum_isSome a4 0 1000 (10/100) t.tritium_level
      (fun q hq => metricScore_isSome _ _ q (Or.inl (htrit q hq)) (by norm_num))
    rw [Prod.mk_zero_zero] at h1
    simp [calculate_health_score, h1, h2, h3, h4, h5]

/-- C10 (witness): totality at a fully in-range reading. -/
theorem C10_divzero_guarded_by_clamps_witness :
    (calculate_health_score
        ⟨some 12000000000000, some 285, some (25/2), some 2, some 500⟩).isSome := by
  refine C10_divzero_guarded_by_clamps.2
    ⟨some 12000000000000, some 285, some (25/2), some 2, some 500⟩
    ?_ ?_ ?_ ?_ ?_ <;>
    · intro q h
      rw [← Option.some.inj h]
      norm_num

/-- C4: with the fault store initially empty, a first fault insert goes
through; a second fault of the same reactor and type whose call time is within
one hour of the first record's timestamp (the record still unresolved) is
suppressed, leaving exactly one persisted record; a third occurrence after the
1-hour window has closed inserts a second record. -/
theorem C4_dedup_one_record_per_window (r : ℤ) (ft s1 s2 s3 : String)
    (n1 t1 n2 t2 n3 t3 : ℤ) (hwin : n2 - 3600 < t1) (hafter : t1 ≤ n3 - 3600) :
    ((create_fault n2 (create_fault n1 [] ⟨r, ft, s1, t1⟩) ⟨r, ft, s2, t2⟩).length = 1) ∧
    ((create_fault n3
        (create_fault n2 (create_fault n1 [] ⟨r, ft, s1, t1⟩) ⟨r, ft, s2, t2⟩)
        ⟨r, ft, s3, t3⟩).length = 2) := by
  have hstep1 : create_fault n1 [] ⟨r, ft, s1, t1⟩ = [⟨r, ft, s1, t1, false⟩] := by
    simp [create_fault]
  have hmatch : dedup_match n2 ⟨r, ft, s2, t2⟩ ⟨r, ft, s1, t1, false⟩ = true := by
    simp [dedup_match]
    omega
  have hstep2 :
      create_fault n2 [⟨r, ft, s1, t1, false⟩] ⟨r, ft, s2, t2⟩ =
        [⟨r, ft, s1, t1, false⟩] := by
    simp [create_fault, hmatch]
  have hnomatch : dedup_match n3 ⟨r, ft, s3, t3⟩ ⟨r, ft, s1, t1, false⟩ = false := by
    simp [dedup_match]
    omega
  have hstep3 :
      create_fault n3 [⟨r, ft, s1, t1, false⟩] ⟨r, ft, s3, t3⟩ =
        [⟨r, ft, s1, t1, false⟩, ⟨r, ft, s3, t3, false⟩] := by
    simp [create_fault, hnomatch]
  rw [hstep1, hstep2, hstep3]
  exact ⟨rfl, rfl⟩

/-- C4 (witness): concrete times 0, 100 (inside the window) and 3600 (outside
it). -/
theorem C4_dedup_one_record_per_window_witness :
    ((create_fault 100 (create_fault 0 [] ⟨1, "temperature_spike", "yellow", 0⟩)
        ⟨1, "temperature_spike", "yellow", 100⟩).length = 1) ∧
    ((create_fault 3600
        (create_fault 100 (create_fault 0 [] ⟨1, "temperature_spike", "yellow", 0⟩)
          ⟨1, "temperature_spike", "yellow", 100⟩)
        ⟨1, "temperature_spike", "yellow", 3600⟩).length = 2) :=
  C4_dedup_one_record_per_window 1 "temperature_spike" "yellow" "yellow" "yellow"
    0 0 100 100 3600 3600 (by norm_num) (by norm_num)

/-- C5 (counterexample): a reading whose fault is suppressed by the de-dup
window (an unresolved `temperature_spike` for the same reactor recorded 100 s
earlier) still publishes an alert to the bus: the fault record is indeed not
persisted, but the alert list grows, contradicting the claim that neither
happens. -/
theorem C5_counterexample :
    ((check_for_faults ⟨1, 200, 12000000000000, 325, 12, 2, 500⟩ 80 200 []
        [⟨1, "temperature_spike", "yellow", 100, false⟩]).2 =
      [⟨1, "temperature_spike", "yellow", 100, false⟩]) ∧
    ((check_for_faults ⟨1, 200, 12000000000000, 325, 12, 2, 500⟩ 80 200 []
        [⟨1, "temperature_spike", "yellow", 100, false⟩]).1 =
      [⟨1, "temperature_spike", "yellow", 200⟩]) := by
  have hft : determine_fault_type
      (Reading.toTelemetry ⟨1, 200, 12000000000000, 325, 12, 2, 500⟩) =
      some "temperature_spike" := by
    norm_num [determine_fault_type, Reading.toTelemetry]
  have hmatch : dedup_match 200 ⟨1, "temperature_spike", "yellow", 200⟩
      ⟨1, "temperature_spike", "yellow", 100, false⟩ = true := by
    simp [dedup_match]
  constructor <;>
    norm_num [check_for_faults, hft, create_fault, hmatch]

/-- C5 (amended): when a sub-90 health score and a classified fault type make
`check_for_faults` construct a fault, the alert is published to the bus
unconditionally — also when the 1-hour de-duplication window suppresses the
record — and the fault record is persisted exactly when no unresolved fault of
the same reactor and type lies within the window. -/
theorem C5_alert_published_even_when_suppressed (reading : Reading) (hs : ℚ)
    (now : ℤ) (alerts : List FaultData) (db : List FaultRecord) (ft : String)
    (h90 : hs < 90) (hft : determine_fault_type reading.toTelemetry = some ft) :
    ((check_for_faults reading hs now alerts db).1 =
        alerts ++ [⟨reading.reactor_id, ft,
          if hs < 70 then "red" else "yellow", reading.timestamp⟩]) ∧
    (db.any (dedup_match now ⟨reading.reactor_id, ft,
        if hs < 70 then "red" else "yellow", reading.timestamp⟩) = true →
      (check_for_faults reading hs now alerts db).2 = db) ∧
    (db.any (dedup_match now ⟨reading.reactor_id, ft,
        if hs < 70 then "red" else "yellow", reading.timestamp⟩) = false →
      (check_for_faults reading hs now alerts db).2 =
        db ++ [⟨reading.reactor_id, ft,
          if hs < 70 then "red" else "yellow", reading.timestamp, false⟩]) := by
  refine ⟨?_, ?_, ?_⟩
  · simp [check_for_faults, if_pos h90, hft]
  · intro hany
    simp [check_for_faults, if_pos h90, hft, create_fault, hany]
  · intro hany
    simp [check_for_faults, if_pos h90, hft, create_fault, hany]

/-- C5 (witness): the amended claim applied at a concrete suppressed
scenario — health score 80, `temperature_spike` classified, an unresolved
matching record 100 s old: the alert is published, the record is not. -/
theorem C5_alert_published_even_when_suppressed_witness :
    ((check_for_faults ⟨1, 200, 12000000000000, 325, 12, 2, 500⟩ 80 200 []
        [⟨1, "temperature_spike", "yellow", 100, false⟩]).1 =
      [⟨1, "temperature_spike", "yellow", 200⟩]) ∧
    ((check_for_faults ⟨1, 200, 12000000000000, 325, 12, 2, 500⟩ 80 200 []
        [⟨1, "temperature_spike", "yellow", 100, false⟩]).2 =
      [⟨1, "temperature_spike", "yellow", 100, false⟩]) := by
  have h := C5_alert_published_even_when_suppressed
    ⟨1, 200, 12000000000000, 325, 12, 2, 500⟩ 80 200 []
    [⟨1, "temperature_spike", "yellow", 100, false⟩] "temperature_spike"
    (by norm_num) (by norm_num [determine_fault_type, Reading.toTelemetry])
  constructor
  · rw [h.1]
    norm_num
  · exact h.2.1 (by simp [dedup_match])

lemma baseline_reading_SMR_step1 :
    generate_telemetry_reading (fun _ => 0) ⟨0, 0, 0, 0, 0⟩ 2 "SMR" 0 1 [] =
      some ⟨2, 0, 4400000000000, 1095/4, 25773/2360, 567/310, 495/2⟩ := by
  have e1 : generate_neutron_flux (fun _ => 0) SMR_profile 1 0 1 = 4400000000000 := by
    norm_num [generate_neutron_flux, SMR_profile, min_def, max_def]
  have e2 : generate_core_temperature (fun _ => 0) SMR_profile 4400000000000 1 0 1 = 1095/4 := by
    norm_num [generate_core_temperature, SMR_profile, min_def, max_def]
  have e3 : generate_pressure (fun _ => 0) SMR_profile (1095/4) 1 0 1 = 25773/2360 := by
    norm_num [generate_pressure, SMR_profile, min_def, max_def]
  have e4 : generate_vibration (fun _ => 0) SMR_profile 1 0 1 = 567/310 := by
    norm_num [generate_vibration, SMR_profile, min_def, max_def]
  have e5 : generate_tritium_level (fun _ => 0) SMR_profile 4400000000000 1 0 1 = 495/2 := by
    norm_num [generate_tritium_level, SMR_profile, min_def, max_def]
  simp [generate_telemetry_reading, getFloatFactor, reactor_profiles, e1, e2, e3, e4, e5]

/-- C6 (counterexample): a cycle over reactors [A, B] = [1, 2] in which the
store accepts A's rows and refuses B's still produces readings for both and
hands both to the bus (2 publish successes), but the whole batch insert fails
(0 store successes) and the `errors` counter stays 0 — it does not increase by
the 1 reading attributable to B, because `insert_telemetry_batch` swallows the
exception and returns 0 while `store_in_database` only counts successes. -/
theorem C6_counterexample :
    ((generate_telemetry_cycle (fun _ => 0) (fun _ => ⟨0, 0, 0, 0, 0⟩) (fun _ => true)
        (fun rd => rd.reactor_id == 1) [(1, "CANDU"), (2, "SMR")] 0
        ⟨0, []⟩ ⟨0, 0, 0, 0⟩).1.map Reading.reactor_id = [1, 2]) ∧
    ((generate_telemetry_cycle (fun _ => 0) (fun _ => ⟨0, 0, 0, 0, 0⟩) (fun _ => true)
        (fun rd => rd.reactor_id == 1) [(1, "CANDU"), (2, "SMR")] 0
        ⟨0, []⟩ ⟨0, 0, 0, 0⟩).2.2 =
      { total_readings := 2, successful_kafka := 2, successful_db := 0, errors := 0 }) ∧
    (0 : ℕ) ≠ 1 := by
  have hr1 := baseline_reading_CANDU (fun _ => 0) rfl 1 0
  have hr2 := baseline_reading_SMR_step1
  refine ⟨?_, ?_, by norm_num⟩ <;>
    simp [generate_telemetry_cycle, genPhase, generate_reading, hr1, hr2,
      send_to_kafka, send_batch_telemetry, store_in_database, insert_telemetry_batch]

/-- C6 (amended): for a cycle over reactors [A, B] whose readings both
generate, where the store accepts A's reading and refuses B's, the cycle still
produces and publishes readings for both A and B — but the batch insert
returns 0, the store-success counter does not move, and the `errors` counter
of the generation statistics is unchanged: the persist failure is surfaced
only by a warning log, never by a counter increment. -/
theorem C6_persist_failure_not_counted (sinq : ℚ → ℚ) (noiseF : ℤ → Noise)
    (kafkaOk dbOk : Reading → Bool) (A B : ℤ × String) (timestamp : ℤ)
    (g g1 g2 : TelemetryGen) (stats : GenStats) (rdA rdB : Reading)
    (hA : generate_reading sinq (noiseF g.time_step) g A.1 A.2 timestamp = some (rdA, g1))
    (hB : generate_reading sinq (noiseF g1.time_step) g1 B.1 B.2 timestamp = some (rdB, g2))
    (_hdbA : dbOk rdA = true) (hdbB : dbOk rdB = false) :
    ((generate_telemetry_cycle sinq noiseF kafkaOk dbOk [A, B] timestamp g stats).1 =
        [rdA, rdB]) ∧
    ((generate_telemetry_cycle sinq noiseF kafkaOk dbOk [A, B] timestamp g stats).2.2.errors =
        stats.errors) ∧
    ((generate_telemetry_cycle sinq noiseF kafkaOk dbOk [A, B] timestamp
        g stats).2.2.successful_db = stats.successful_db) := by
  refine ⟨?_, ?_, ?_⟩ <;>
    simp [generate_telemetry_cycle, genPhase, hA, hB, send_to_kafka,
      send_batch_telemetry, store_in_database, insert_telemetry_batch, hdbB]

/-- C6 (witness): the amended claim at the concrete failing-B cycle. -/
theorem C6_persist_failure_not_counted_witness :
    ((generate_telemetry_cycle (fun _ => 0) (fun _ => ⟨0, 0, 0, 0, 0⟩) (fun _ => true)
        (fun rd => rd.reactor_id == 1) [(1, "CANDU"), (2, "SMR")] 0
        ⟨0, []⟩ ⟨0, 0, 0, 0⟩).1 =
      [⟨1, 0, 6000000000000, 545/2, 5675/456, 21/10, 225⟩,
       ⟨2, 0, 4400000000000, 1095/4, 25773/2360, 567/310, 495/2⟩]) ∧
    ((generate_telemetry_cycle (fun _ => 0) (fun _ => ⟨0, 0, 0, 0, 0⟩) (fun _ => true)
        (fun rd => rd.reactor_id == 1) [(1, "CANDU"), (2, "SMR")] 0
        ⟨0, []⟩ ⟨0, 0, 0, 0⟩).2.2.errors = (⟨0, 0, 0, 0⟩ : GenStats).errors) ∧
    ((generate_telemetry_cycle (fun _ => 0) (fun _ => ⟨0, 0, 0, 0, 0⟩) (fun _ => true)
        (fun rd => rd.reactor_id == 1) [(1, "CANDU"), (2, "SMR")] 0
        ⟨0, []⟩ ⟨0, 0, 0, 0⟩).2.2.successful_db =
      (⟨0, 0, 0, 0⟩ : GenStats).successful_db) := by
  refine C6_persist_failure_not_counted (fun _ => 0) (fun _ => ⟨0, 0, 0, 0, 0⟩)
    (fun _ => true) (fun rd => rd.reactor_id == 1) (1, "CANDU") (2, "SMR") 0
    ⟨0, []⟩ ⟨1, []⟩ ⟨2, []⟩ ⟨0, 0, 0, 0⟩ _ _ ?_ ?_ rfl rfl
  · simp [generate_reading, baseline_reading_CANDU (fun _ => 0) rfl 1 0]
  · simp [generate_reading, baseline_reading_SMR_step1]

lemma generate_reading_active (sinq : ℚ → ℚ) (noise : Noise) (g : TelemetryGen)
    (rid : ℤ) (rtype : String) (ts : ℤ) (rd : Reading) (g1 : TelemetryGen)
    (h : generate_reading sinq noise g rid rtype ts = some (rd, g1)) :
    g1.active_anomalies = g.active_anomalies := by
  unfold generate_reading at h
  obtain ⟨rd0, _, h2⟩ := Option.map_eq_some'.mp h
  have := congrArg Prod.snd h2
  simp at this
  rw [← this]

lemma genPhase_active (sinq : ℚ → ℚ) (noiseF : ℤ → Noise) (ts : ℤ) :
    ∀ (rs : List (ℤ × String)) (g : TelemetryGen) (stats : GenStats),
      (genPhase sinq noiseF ts rs g stats).2.1.active_anomalies = g.active_anomalies := by
  intro rs
  induction rs with
  | nil => intro g stats; rfl
  | cons r rest ih =>
    intro g stats
    simp only [genPhase]
    cases h : generate_reading sinq (noiseF g.time_step) g r.1 r.2 ts with
    | none => exact ih g _
    | some p =>
      have hact := generate_reading_active sinq (noiseF g.time_step) g r.1 r.2 ts p.1 p.2
        (by rw [h])
      simp only []
      rw [ih p.2 _, hact]

/-- C7 (counterexample): a cycle started at time 100 over a tracker holding an
anomaly for reactor 1 that expired at 99 generates its readings while the
expired anomaly is still tracked — the event trace shows generation over the
unswept tracker first and the sweep only afterwards, so the sweep is not
performed before reading generation as claimed. -/
theorem C7_counterexample :
    ((run_cycle (fun _ => 0) (fun _ => ⟨0, 0, 0, 0, 0⟩) (fun _ => true) (fun _ => true)
        [(1, "CANDU")] 100 100
        ⟨0, [(1, ⟨[("pressure", 3/4)], 99, "pressure_drop", "red"⟩)]⟩
        ⟨0, 0, 0, 0⟩).2 =
      [CycleEvent.generated [(1, ⟨[("pressure", 3/4)], 99, "pressure_drop", "red"⟩)],
       CycleEvent.swept]) ∧
    (99 : ℤ) < 100 := by
  exact ⟨by simp [run_cycle], by norm_num⟩

/-- C7 (amended): in every cycle of the run loop, readings are generated
against the tracker as it stood at cycle start — the expired-anomaly sweep
runs only after reading generation (the trace is generation first, sweep
second), and the post-cycle tracker equals the pre-cycle tracker with the
entries expired by sweep time removed. -/
theorem C7_sweep_runs_after_generation (sinq : ℚ → ℚ) (noiseF : ℤ → Noise)
    (kafkaOk dbOk : Reading → Bool) (reactors : List (ℤ × String))
    (now sweepNow : ℤ) (g : TelemetryGen) (stats : GenStats) :
    ((run_cycle sinq noiseF kafkaOk dbOk reactors now sweepNow g stats).2 =
      [CycleEvent.generated g.active_anomalies, CycleEvent.swept]) ∧
    ((run_cycle sinq noiseF kafkaOk dbOk reactors now sweepNow g
        stats).1.2.1.active_anomalies =
      g.active_anomalies.filter (fun p => !decide (p.2.expires_at < sweepNow))) := by
  constructor
  · simp [run_cycle]
  · simp [run_cycle, generate_telemetry_cycle, update_anomalies,
      genPhase_active sinq noiseF now reactors g stats]

lemma lookup_setKey_self (k : ℤ) (v : AnomalyEntry) :
    ∀ m : List (ℤ × AnomalyEntry), List.lookup k (setKey m k v) = some v := by
  intro m
  induction m with
  | nil => simp [setKey]
  | cons p rest ih =>
    obtain ⟨a, b⟩ := p
    cases hp : (a == k) with
    | true =>
      simp [setKey, hp]
    | false =>
      have hne : a ≠ k := by
        intro he
        rw [he] at hp
        simp at hp
      have hk : (k == a) = false := beq_eq_false_iff_ne.mpr (Ne.symm hne)
      simp [setKey, hp, List.lookup_cons, hk, ih]

lemma countP_setKey_ne (k j : ℤ) (v : AnomalyEntry) (hkj : (k == j) = false) :
    ∀ m : List (ℤ × AnomalyEntry),
      (setKey m k v).countP (fun p => p.1 == j) = m.countP (fun p => p.1 == j) := by
  intro m
  induction m with
  | nil => simp [setKey, List.countP_cons, hkj]
  | cons p rest ih =>
    obtain ⟨a, b⟩ := p
    cases hp : (a == k) with
    | true =>
      have ha : a = k := eq_of_beq hp
      subst ha
      simp [setKey, List.countP_cons, hkj]
    | false =>
      simp [setKey, hp, List.countP_cons, ih]

lemma countP_setKey_eq (k : ℤ) (v : AnomalyEntry) :
    ∀ m : List (ℤ × AnomalyEntry), m.countP (fun p => p.1 == k) ≤ 1 →
      (setKey m k v).countP (fun p => p.1 == k) ≤ 1 := by
  intro m
  induction m with
  | nil => intro _; simp [setKey, List.countP_cons]
  | cons p rest ih =>
    obtain ⟨a, b⟩ := p
    intro h
    cases hp : (a == k) with
    | true =>
      have ha : a = k := eq_of_beq hp
      subst ha
      simp only [List.countP_cons, hp, if_true] at h
      simp only [setKey, hp, if_true, List.countP_cons, beq_self_eq_true]
      simpa using h
    | false =>
      simp only [List.countP_cons, hp, Bool.false_eq_true, if_false] at h
      simp only [setKey, hp, Bool.false_eq_true, if_false, List.countP_cons]
      have := ih (by simpa using h)
      simpa [hp] using this

lemma countP_setKey (m : List (ℤ × AnomalyEntry)) (k : ℤ) (v : AnomalyEntry) (j : ℤ)
    (h : m.countP (fun p => p.1 == j) ≤ 1) :
    (setKey m k v).countP (fun p => p.1 == j) ≤ 1 := by
  cases hkj : (k == j) with
  | true =>
    have hk : k = j := eq_of_beq hkj
    subst hk
    exact countP_setKey_eq k v m h
  | false =>
    rw [countP_setKey_ne k j v hkj m]
    exact h

lemma entry_factors_neutral (sinq : ℚ → ℚ) (noise : Noise) (rid : ℤ)
    (rtype : String) (ts tstep : ℤ) (e : AnomalyEntry) :
    generate_telemetry_reading sinq noise rid rtype ts tstep (entryToDict e) =
      generate_telemetry_reading sinq noise rid rtype ts tstep [] := by
  have h1 : getFloatFactor (entryToDict e) "neutron_flux" = some 1 := rfl
  have h2 : getFloatFactor (entryToDict e) "core_temperature" = some 1 := rfl
  have h3 : getFloatFactor (entryToDict e) "pressure" = some 1 := rfl
  have h4 : getFloatFactor (entryToDict e) "vibration" = some 1 := rfl
  have h5 : getFloatFactor (entryToDict e) "tritium_level" = some 1 := rfl
  have h0 : ∀ k, getFloatFactor [] k = some 1 := fun _ => rfl
  simp [generate_telemetry_reading, h1, h2, h3, h4, h5, h0]

/-- C8: after two consecutive injections for the same reactor the tracker
holds exactly the second injection's entry (its factor map, type, severity,
and expiry `now₂ + duration₂`); the tracker keeps at most one entry per
reactor at every stage; and the next reading generated for that reactor
carries none of the first injection's factors — it equals the reading
generated with no tracked anomaly at all (the stored entry dict's keys are
not metric names, so every factor lookup falls back to 1.0). -/
theorem C8_second_injection_replaces_first (g0 g1 g2 : TelemetryGen)
    (r now1 now2 d1 d2 : ℤ) (t1 s1 t2 s2 : String) (f2 : List (String × ℚ))
    (h2 : AnomalyGenerator.generate_anomaly t2 s2 = some f2)
    (hg1 : inject_anomaly g0 now1 r t1 s1 d1 = some g1)
    (hg2 : inject_anomaly g1 now2 r t2 s2 d2 = some g2)
    (hone : ∀ k, g0.active_anomalies.countP (fun p => p.1 == k) ≤ 1) :
    (List.lookup r g2.active_anomalies =
        some ⟨f2, now2 + 60 * d2, t2, s2⟩) ∧
    (∀ k, g1.active_anomalies.countP (fun p => p.1 == k) ≤ 1) ∧
    (∀ k, g2.active_anomalies.countP (fun p => p.1 == k) ≤ 1) ∧
    (∀ (sinq : ℚ → ℚ) (noise : Noise) (rtype : String) (ts : ℤ),
      Option.map Prod.fst (generate_reading sinq noise g2 r rtype ts) =
        Option.map Prod.fst
          (generate_reading sinq noise { g2 with active_anomalies := [] } r rtype ts)) := by
  obtain ⟨f1, hf1, hG1⟩ := Option.map_eq_some'.mp hg1
  obtain ⟨f2', hf2', hG2⟩ := Option.map_eq_some'.mp hg2
  rw [h2] at hf2'
  obtain rfl : f2 = f2' := Option.some.inj hf2'
  have hact1 : g1.active_anomalies =
      setKey g0.active_anomalies r ⟨f1, now1 + 60 * d1, t1, s1⟩ := by
    rw [← hG1]
  have hact2 : g2.active_anomalies =
      setKey g1.active_anomalies r ⟨f2, now2 + 60 * d2, t2, s2⟩ := by
    rw [← hG2]
  have hcnt1 : ∀ k, g1.active_anomalies.countP (fun p => p.1 == k) ≤ 1 := by
    intro k
    rw [hact1]
    exact countP_setKey _ _ _ _ (hone k)
  have hcnt2 : ∀ k, g2.active_anomalies.countP (fun p => p.1 == k) ≤ 1 := by
    intro k
    rw [hact2]
    exact countP_setKey _ _ _ _ (hcnt1 k)
  have hlook : List.lookup r g2.active_anomalies =
      some ⟨f2, now2 + 60 * d2, t2, s2⟩ := by
    rw [hact2]
    exact lookup_setKey_self _ _ _
  refine ⟨hlook, hcnt1, hcnt2, ?_⟩
  intro sinq noise rtype ts
  simp only [generate_reading, hlook, List.lookup, Option.map_map]
  rw [entry_factors_neutral]
  rfl

/-- C8 (witness): a pressure-drop injection followed by a vibration-increase
injection for reactor 1; the tracker holds exactly the second entry. -/
theorem C8_second_injection_replaces_first_witness :
    List.lookup 1 (TelemetryGen.active_anomalies
        ⟨0, [(1, ⟨[("vibration", 18/10)], 1860, "vibration_increase", "yellow"⟩)]⟩) =
      some ⟨[("vibration", 18/10)], 1860, "vibration_increase", "yellow"⟩ :=
  (C8_second_injection_replaces_first ⟨0, []⟩
    ⟨0, [(1, ⟨[("pressure", 75/100)], 1800, "pressure_drop", "red"⟩)]⟩
    ⟨0, [(1, ⟨[("vibration", 18/10)], 1860, "vibration_increase", "yellow"⟩)]⟩
    1 0 60 30 30 "pressure_drop" "red" "vibration_increase" "yellow"
    [("vibration", 18/10)]
    (by simp [AnomalyGenerator.generate_anomaly, AnomalyGenerator.vibration_increase])
    (by simp [inject_anomaly, AnomalyGenerator.generate_anomaly,
      AnomalyGenerator.pressure_drop, setKey])
    (by simp [inject_anomaly, AnomalyGenerator.generate_anomaly,
      AnomalyGenerator.vibration_increase, setKey])
    (by intro k; simp)).1
